import Mathlib

/-!
Verification of the command interpretation and dispatch pipeline of the
Blender voice-assistant repository (source: src/process_command.py).

The embedding is a shallow one: Python strings are `List Char` / `String`,
Python numbers are `ℚ` (decimal values are exact; binary floating point
rounding is not observed by any property proved here), JSON values are an
inductive `Json`, Python exceptions are an explicit `PyExc` sum carried by
an `Except`, and Blender-side effects are recorded as a trace of `BpyOp`
values whose outcome is decided by an environment of capabilities `Env`
(the host application, the language-model backend and `exec` are external
collaborators of the program).
-/

namespace BlenderSpec

/-! ## Python string primitives (CPython semantics, ASCII range) -/

/-- Whitespace recognised by Python's `str.strip()` (space, tab, newline,
carriage return, vertical tab, form feed). -/
def pyWs (c : Char) : Bool :=
  c = ' ' || c = '\t' || c = '\n' || c = '\r' || c = Char.ofNat 11 || c = Char.ofNat 12

/-- Python `str.strip()` on a character list. -/
def pyStripChars (cs : List Char) : List Char :=
  ((cs.dropWhile pyWs).reverse.dropWhile pyWs).reverse

/-- Python `str.strip()` on a `String`. -/
def pyStrip (s : String) : String := ⟨pyStripChars s.data⟩

/-- Python `str.lower()` (ASCII case folding; the repository only lowercases ASCII
color names and ASCII model output). -/
def pyLower (s : String) : String := ⟨s.data.map Char.toLower⟩

/-- Python `str.upper()` (ASCII). -/
def pyUpper (s : String) : String := ⟨s.data.map Char.toUpper⟩

/-- Python `str.split(sep)` for a one-character separator: splits at every
occurrence, keeping empty pieces, like Python's `"a,,b".split(',')`. -/
def pySplitOn (sep : Char) : List Char → List (List Char)
  | [] => [[]]
  | c :: rest =>
    let r := pySplitOn sep rest
    if c = sep then [] :: r
    else match r with
      | [] => [[c]]
      | piece :: more => (c :: piece) :: more

/-- Python `str.find(c)` for a single character: index of the first occurrence,
`none` standing for Python's `-1`. -/
def pyFindChar (cs : List Char) (c : Char) : Option Nat :=
  cs.findIdx? (· = c)

/-- Python `str.rfind(c)` for a single character: index of the last occurrence,
`none` standing for Python's `-1`. -/
def pyRfindChar (cs : List Char) (c : Char) : Option Nat :=
  (cs.reverse.findIdx? (· = c)).map (fun i => cs.length - 1 - i)

/-- Python slice `s[i:j]` for `0 ≤ i`, `0 ≤ j` (out-of-range indices are
clamped, `i ≥ j` yields the empty string), as used at
`ai_response_content[json_start_index:json_end_index]`. -/
def pySlice (cs : List Char) (i j : Nat) : List Char :=
  (cs.take j).drop i

/-- The opening brace character, written via its code point. -/
def lbrace : Char := Char.ofNat 123

/-- The closing brace character, written via its code point. -/
def rbrace : Char := Char.ofNat 125

/-! ## Python `float(str)` parsing

`float()` strips surrounding whitespace, then accepts an optional sign, a
decimal mantissa (`digits`, `digits.digits`, `digits.`, `.digits`) and an
optional exponent part.  The result is modelled exactly as a rational.
(`inf` / `nan` / digit-group underscores are accepted by CPython but are
exercised by no claim and are not modelled.) -/

/-- Numeric value of a digit string (`[]` counts as 0, used for the empty
integer part of `".5"` and the empty fraction part of `"1."`). -/
def digitsVal (cs : List Char) : Nat :=
  cs.foldl (fun acc c => acc * 10 + (c.toNat - 48)) 0

/-- Mantissa grammar: `digits`, `digits.digits`, `digits.` or `.digits`. -/
def parsePyMantissa (cs : List Char) : Option ℚ :=
  let ip := cs.takeWhile (·.isDigit)
  let rest := cs.dropWhile (·.isDigit)
  match rest with
  | [] => if ip.isEmpty then none else some (digitsVal ip : ℚ)
  | '.' :: fp =>
    if fp.all (·.isDigit) && !(ip.isEmpty && fp.isEmpty) then
      some ((digitsVal ip : ℚ) + (digitsVal fp : ℚ) / (10 : ℚ) ^ fp.length)
    else none
  | _ => none

/-- Exponent digits with an optional sign (`e12`, `e+12`, `e-12`). -/
def parsePyExponent (cs : List Char) : Option Int :=
  match cs with
  | '+' :: ds => if ds.all (·.isDigit) && !ds.isEmpty then some (digitsVal ds : Int) else none
  | '-' :: ds => if ds.all (·.isDigit) && !ds.isEmpty then some (-(digitsVal ds : Int)) else none
  | ds => if ds.all (·.isDigit) && !ds.isEmpty then some (digitsVal ds : Int) else none

/-- Unsigned float literal: mantissa with an optional `e`/`E` exponent. -/
def parsePyFloatUnsigned (cs : List Char) : Option ℚ :=
  let mant := cs.takeWhile (fun c => !(c = 'e' || c = 'E'))
  let rest := cs.dropWhile (fun c => !(c = 'e' || c = 'E'))
  let expo : Option Int :=
    match rest with
    | [] => some 0
    | _ :: er => parsePyExponent er
  match expo, parsePyMantissa mant with
  | some e, some m => some (m * (10 : ℚ) ^ e)
  | _, _ => none

/-- Python `float(s)` on a string: strip whitespace, optional sign, literal. -/
def parsePyFloat (cs : List Char) : Option ℚ :=
  match pyStripChars cs with
  | '+' :: r => parsePyFloatUnsigned r
  | '-' :: r => (parsePyFloatUnsigned r).map Neg.neg
  | r => parsePyFloatUnsigned r

/-! ## JSON values and `json.loads`

`json.loads` is the Python standard library decoder used at
`parsed_response = json.loads(json_string)`.  The model below parses the
standard JSON grammar (objects, arrays, strings with escapes, numbers,
literals).  Error values are the `str()` of the raised `JSONDecodeError`;
CPython's line/column rendering is reproduced only for the empty-document
case, the one error text a claim observes (`json.loads("")` raises
`Expecting value: line 1 column 1 (char 0)`).  Python's `int` vs `float`
distinction for decoded numbers is collapsed into `ℚ`; no claim observes
the difference (it only affects `str()` display of numbers, and no
property proved here inspects a message containing a decoded number). -/

inductive Json where
  | null : Json
  | bool (b : Bool) : Json
  | num (q : ℚ) : Json
  | str (s : String) : Json
  | arr (elems : List Json) : Json
  | obj (fields : List (String × Json)) : Json

/-- JSON inter-token whitespace. -/
def jsonWs (c : Char) : Bool := c = ' ' || c = '\t' || c = '\n' || c = '\r'

/-- Body of a JSON string literal after the opening quote: returns the
decoded characters and the remaining input after the closing quote. -/
def parseJStrChars : List Char → Except String (List Char × List Char)
  | [] => .error "Unterminated string starting at"
  | '"' :: rest => .ok ([], rest)
  | '\\' :: e :: rest =>
    match e with
    | '"' => (parseJStrChars rest).map (fun p => ('"' :: p.1, p.2))
    | '\\' => (parseJStrChars rest).map (fun p => ('\\' :: p.1, p.2))
    | '/' => (parseJStrChars rest).map (fun p => ('/' :: p.1, p.2))
    | 'b' => (parseJStrChars rest).map (fun p => (Char.ofNat 8 :: p.1, p.2))
    | 'f' => (parseJStrChars rest).map (fun p => (Char.ofNat 12 :: p.1, p.2))
    | 'n' => (parseJStrChars rest).map (fun p => ('\n' :: p.1, p.2))
    | 'r' => (parseJStrChars rest).map (fun p => ('\r' :: p.1, p.2))
    | 't' => (parseJStrChars rest).map (fun p => ('\t' :: p.1, p.2))
    | _ => .error "Invalid \\escape"
  | c :: rest => (parseJStrChars rest).map (fun p => (c :: p.1, p.2))

/-- JSON number grammar: `-? int frac? exp?` with `int = 0 | [1-9][0-9]*`.
Returns the value and the remaining input. -/
def parseJNum (cs : List Char) : Except String (ℚ × List Char) :=
  let (sgn, cs1) : ℚ × List Char :=
    match cs with
    | '-' :: r => (-1, r)
    | r => (1, r)
  let ip := cs1.takeWhile (·.isDigit)
  let r1 := cs1.dropWhile (·.isDigit)
  if ip.isEmpty then .error "Expecting value"
  else if ip.length > 1 && ip.headD '0' = '0' then .error "Expecting value"
  else
    let (frac, r2) : ℚ × List Char :=
      match r1 with
      | '.' :: fr =>
        let fp := fr.takeWhile (·.isDigit)
        ((digitsVal fp : ℚ) / (10 : ℚ) ^ fp.length, fr.dropWhile (·.isDigit))
      | r => (0, r)
    let fracBad : Bool :=
      match r1 with
      | '.' :: fr => (fr.takeWhile (·.isDigit)).isEmpty
      | _ => false
    if fracBad then .error "Expecting value"
    else
      match r2 with
      | 'e' :: er | 'E' :: er =>
        let (es, er1) : Int × List Char :=
          match er with
          | '+' :: t => (1, t)
          | '-' :: t => (-1, t)
          | t => (1, t)
        let ed := er1.takeWhile (·.isDigit)
        if ed.isEmpty then .error "Expecting value"
        else
          .ok (sgn * ((digitsVal ip : ℚ) + frac) * (10 : ℚ) ^ (es * (digitsVal ed : Int)),
               er1.dropWhile (·.isDigit))
      | _ => .ok (sgn * ((digitsVal ip : ℚ) + frac), r2)

mutual

/-- One JSON value (fuelled recursion; the fuel bound chosen by
`pyJsonLoads` is large enough that it is never exhausted on its input). -/
def parseJVal : Nat → List Char → Except String (Json × List Char)
  | 0, _ => .error "Expecting value"
  | Nat.succ f, cs =>
    match cs.dropWhile jsonWs with
    | [] => .error "Expecting value"
    | c :: rest =>
      if c = '"' then
        (parseJStrChars rest).map (fun p => (Json.str ⟨p.1⟩, p.2))
      else if c = lbrace then
        parseJObjRest f (rest.dropWhile jsonWs) true
      else if c = '[' then
        parseJArrRest f (rest.dropWhile jsonWs) true
      else if c = 't' then
        match rest with
        | 'r' :: 'u' :: 'e' :: r => .ok (Json.bool true, r)
        | _ => .error "Expecting value"
      else if c = 'f' then
        match rest with
        | 'a' :: 'l' :: 's' :: 'e' :: r => .ok (Json.bool false, r)
        | _ => .error "Expecting value"
      else if c = 'n' then
        match rest with
        | 'u' :: 'l' :: 'l' :: r => .ok (Json.null, r)
        | _ => .error "Expecting value"
      else
        (parseJNum (c :: rest)).map (fun p => (Json.num p.1, p.2))

/-- Members of an object after the opening brace (whitespace already
skipped); `first` is true until a member has been read, so that an
immediate closing brace yields the empty object. -/
def parseJObjRest : Nat → List Char → Bool → Except String (Json × List Char)
  | 0, _, _ => .error "Expecting value"
  | Nat.succ f, cs, first =>
    match cs with
    | [] => .error "Expecting property name enclosed in double quotes"
    | c :: rest =>
      if c = rbrace && first then .ok (Json.obj [], rest)
      else if c = '"' then
        match parseJStrChars rest with
        | .error e => .error e
        | .ok (key, r1) =>
          match r1.dropWhile jsonWs with
          | ':' :: r2 =>
            match parseJVal f r2 with
            | .error e => .error e
            | .ok (v, r3) =>
              match r3.dropWhile jsonWs with
              | ',' :: r4 =>
                match parseJObjRest f (r4.dropWhile jsonWs) false with
                | .ok (Json.obj more, r5) => .ok (Json.obj ((⟨key⟩, v) :: more), r5)
                | .ok _ => .error "Expecting property name enclosed in double quotes"
                | .error e => .error e
              | r4 =>
                if r4.headD ' ' = rbrace then .ok (Json.obj [(⟨key⟩, v)], r4.tail)
                else .error "Expecting ',' delimiter"
          | _ => .error "Expecting ':' delimiter"
      else .error "Expecting property name enclosed in double quotes"

/-- Elements of an array after the opening bracket (whitespace already
skipped). -/
def parseJArrRest : Nat → List Char → Bool → Except String (Json × List Char)
  | 0, _, _ => .error "Expecting value"
  | Nat.succ f, cs, first =>
    match cs with
    | [] => .error "Expecting value"
    | c :: rest =>
      if c = ']' && first then .ok (Json.arr [], rest)
      else
        match parseJVal f cs with
        | .error e => .error e
        | .ok (v, r1) =>
          match r1.dropWhile jsonWs with
          | ',' :: r2 =>
            match parseJArrRest f (r2.dropWhile jsonWs) false with
            | .ok (Json.arr more, r3) => .ok (Json.arr (v :: more), r3)
            | .ok _ => .error "Expecting value"
            | .error e => .error e
          | ']' :: r2 => .ok (Json.arr [v], r2)
          | _ => .error "Expecting ',' delimiter"

end

/-- Python `json.loads(s)`: decode one JSON document, requiring the whole input to
be consumed (`Extra data` otherwise).  `json.loads("")` raises a
`JSONDecodeError` whose `str()` is `Expecting value: line 1 column 1
(char 0)`; this is the error text the dispatcher surfaces when the slice
between the brace indices is empty. -/
def pyJsonLoads (cs : List Char) : Except String Json :=
  if cs.isEmpty then .error "Expecting value: line 1 column 1 (char 0)"
  else
    match parseJVal (2 * cs.length + 8) cs with
    | .error e => .error e
    | .ok (v, rest) =>
      if (rest.dropWhile jsonWs).isEmpty then .ok v else .error "Extra data"

/-! ## Python exceptions and value conversions -/

/-- The Python exceptions the pipeline can raise or catch. -/
inductive PyExc where
  | typeError (msg : String)
  | valueError (msg : String)
  | attributeError (msg : String)
  | other (msg : String)
deriving DecidableEq, Repr

/-- Python `str(e)` of an exception, as interpolated into `f"Error in
process_command: {e}"` and `f"Error during script generation/execution:
{e}"`. -/
def pyExcStr : PyExc → String
  | .typeError m => m
  | .valueError m => m
  | .attributeError m => m
  | .other m => m

/-- Display of a number inside an f-string.  Display-only: Python renders
floats as e.g. `90.0` and integers as `90`; the distinction is collapsed
here and no property proved below inspects a message containing a number. -/
def qStr (q : ℚ) : String :=
  if q.den = 1 then toString q.num else toString q.num ++ "/" ++ toString q.den

/-- Python `str(v)` of a decoded JSON value, as interpolated into f-strings
(`str(axis)`, `f"Command '{command_name}' not recognized."`, ...).
Containers are only ever rendered on paths no claim observes. -/
def pyStrOfJson : Json → String
  | .str s => s
  | .num q => qStr q
  | .bool b => if b then "True" else "False"
  | .null => "None"
  | .arr _ => "[...]"
  | .obj _ => "\x7b...\x7d"

/-- Python `float(v)` on a decoded JSON value: numbers pass through, bools
coerce to 0/1, strings are parsed (a failed parse raises `ValueError`),
everything else raises `TypeError`. -/
def pyFloatOfJson : Json → Except PyExc ℚ
  | .num q => .ok q
  | .bool b => .ok (if b then 1 else 0)
  | .str s =>
    match parsePyFloat s.data with
    | some q => .ok q
    | none => .error (.valueError ("could not convert string to float: '" ++ s ++ "'"))
  | .null => .error (.typeError "float() argument must be a string or a real number, not 'NoneType'")
  | .arr _ => .error (.typeError "float() argument must be a string or a real number, not 'list'")
  | .obj _ => .error (.typeError "float() argument must be a string or a real number, not 'dict'")

/-! ## Color parsing (source lines 30-66) -/

/-- Canonical RGBA color: four components, alpha last. -/
abbrev Rgba : Type := ℚ × ℚ × ℚ × ℚ

/-- The `STANDARD_COLORS` table (name to RGBA), source lines 30-40.
Decimal literals are exact rationals. -/
def STANDARD_COLORS : List (String × Rgba) :=
  [ ("red", (1, 0, 0, 1)), ("green", (0, 1, 0, 1)),
    ("blue", (0, 0, 1, 1)), ("white", (1, 1, 1, 1)),
    ("black", (0, 0, 0, 1)), ("yellow", (1, 1, 0, 1)),
    ("orange", (1, 1/2, 0, 1)), ("purple", (1/2, 0, 1/2, 1)),
    ("cyan", (0, 1, 1, 1)), ("magenta", (1, 0, 1, 1)),
    ("gray", (1/2, 1/2, 1/2, 1)), ("brown", (3/5, 2/5, 1/5, 1)),
    ("pink", (1, 3/4, 4/5, 1)), ("lime", (3/4, 1, 0, 1)),
    ("teal", (0, 1/2, 1/2, 1)), ("navy", (0, 0, 1/2, 1)),
    ("silver", (3/4, 3/4, 3/4, 1)), ("gold", (1, 21/25, 0, 1)) ]

/-- Dictionary lookup in `STANDARD_COLORS` (`color_str in STANDARD_COLORS`
followed by indexing; keys are unique). -/
def lookupColor (s : String) : Option Rgba :=
  (STANDARD_COLORS.find? (fun e => e.1 = s)).map (·.2)

/-- Python `[float(p.strip()) for p in parts]`: left-to-right conversion of every
comma-separated token; the first non-numeric token aborts the whole
comprehension with `ValueError` (modelled as `none`, since the caller
catches exactly that exception). -/
def floatTokens : List (List Char) → Option (List ℚ)
  | [] => some []
  | t :: ts =>
    match parsePyFloat (pyStripChars t) with
    | none => none
    | some q => (floatTokens ts).map (q :: ·)

/-- Python `parse_color_value` (source lines 42-66).  The input is a decoded JSON
value (the parameter arrives from the model reply): a string is looked up
as a color name after lowercasing, else split at commas into float tokens
(3 tokens get alpha 1.0, 4 keep their alpha, a failed `float()` is caught
by the `except ValueError` and yields `None`); a list of length 3 or 4 is
converted elementwise by `float(c)` — those conversions are NOT inside any
`try`, so a non-numeric element propagates its exception out of the
function; every other shape prints a message and returns `None`.
`.ok none` is the `None` return (the parse failure), `.error` a raised
exception. -/
def parse_color_value (color_value_input : Json) : Except PyExc (Option Rgba) :=
  match color_value_input with
  | .str s =>
    let color_str := pyLower s
    match lookupColor color_str with
    | some c => .ok (some c)
    | none =>
      match floatTokens (pySplitOn ',' color_str.data) with
      | none => .ok none
      | some [r, g, b] => .ok (some (r, g, b, 1))
      | some [r, g, b, a] => .ok (some (r, g, b, a))
      | some _ => .ok none
  | .arr l =>
    match l with
    | [a, b, c] => do
      let x ← pyFloatOfJson a
      let y ← pyFloatOfJson b
      let z ← pyFloatOfJson c
      pure (some (x, y, z, 1))
    | [a, b, c, d] => do
      let x ← pyFloatOfJson a
      let y ← pyFloatOfJson b
      let z ← pyFloatOfJson c
      let w ← pyFloatOfJson d
      pure (some (x, y, z, w))
    | _ => .ok none
  | _ => .ok none

/-! ## Effects: Blender operations, the capability environment, `PyM`

A computation of the pipeline produces a trace of attempted host
operations together with either a value or a raised Python exception.
The outcome of each host operation, of each model call and of `exec` is
decided by an `Env` of external capabilities (spec §6): the program under
verification only chooses *which* operations run and in what order. -/

/-- One attempted Blender operation.  `transform_rotate` records the angle
in degrees: the source converts with `math.radians` immediately before the
`bpy.ops.transform.rotate` call, and that conversion is injective, so the
degree value determines the radian argument. -/
inductive BpyOp where
  | primitive_cube_add
  | primitive_uv_sphere_add
  | primitive_plane_add
  | primitive_bezier_curve_add
  | modifier_add_ocean
  | new_geometry_nodes_modifier
  | object_delete
  | view_axis (axisType : String)
  | view_camera
  | transform_resize (x y z : ℚ)
  | transform_rotate (angleDegrees : ℚ) (orientAxis : String)
  | transform_translate (x y z : ℚ)
  | exec_script (code : String)
deriving DecidableEq, Repr

/-- A pipeline computation: the trace of operations attempted so far and
either a result or a raised exception. -/
def PyM (α : Type) : Type := List BpyOp × Except PyExc α

instance : Monad PyM where
  pure a := ([], .ok a)
  bind m f :=
    match m with
    | (ops, .error e) => (ops, .error e)
    | (ops, .ok a) => let r := f a; (ops ++ r.1, r.2)

/-- Lift an exception-or-value with no operations attempted. -/
def liftExc {α : Type} (r : Except PyExc α) : PyM α := ([], r)

/-- Raise an exception. -/
def throwPy {α : Type} (e : PyExc) : PyM α := ([], .error e)

/-- Python `try ... except Exception as e: <handler>`: operations attempted before
the exception stay in the trace. -/
def catchPy {α : Type} (m : PyM α) (h : PyExc → PyM α) : PyM α :=
  match m with
  | (ops, .ok a) => (ops, .ok a)
  | (ops, .error e) => let r := h e; (ops ++ r.1, r.2)

/-- The external capabilities (spec §6).  `llmChat` / `scriptLlmChat` are
the two `ollama.chat` calls (either a reply text or a raised error);
`bpyResult` decides whether an attempted Blender operation succeeds or
raises.  The bodies of `color_object_action`, `add_shader_node_action` and
`remove_selected_nodes_action` interrogate live scene state (active
object, materials, node editors) throughout their control flow, so those
three bodies are abstracted whole as capabilities; no claim observes their
internals, only whether dispatch reaches them and with what arguments.
The pure color parsing that `color_object_action` relies on is modelled
separately and exactly as `parse_color_value` above. -/
structure Env where
  llmChat : Except PyExc String
  scriptLlmChat : Except PyExc String
  bpyResult : BpyOp → Except PyExc Unit
  colorObjectBody : Json → Json → PyM String
  addShaderNodeBody : Json → Json → PyM String
  removeSelectedNodesBody : PyM String

/-- Attempt one Blender operation: it enters the trace, and the
environment decides whether it succeeds or raises. -/
def performOp (env : Env) (op : BpyOp) : PyM Unit := ([op], env.bpyResult op)

/-! ## Registry entries

A registry value is a Python callable: its `__name__` (used in binding
error messages), its runtime class, its signature (parameter names with
defaults, `none` marking a required parameter) and its body. -/

/-- Runtime class of a Python value, as tested by `isinstance`. -/
inductive PyType where
  | function
  | other (className : String)
deriving DecidableEq, Repr

/-- Python `type(lambda: 0)`: in CPython a lambda expression evaluates to an
object of the class `function` — the very same class as a `def`-defined
function (`types.LambdaType is types.FunctionType` holds). -/
def type_of_lambda : PyType := .function

structure Action where
  name : String
  runtimeType : PyType
  params : List (String × Option Json)
  run : (String → Json) → Env → PyM String

/-- Names of the parameters with no default. -/
def requiredNames (a : Action) : List String :=
  (a.params.filter (fun pr => pr.2.isNone)).map (·.1)

/-- Python `TypeError` text for missing required positional arguments,
e.g. `f() missing 1 required positional argument: 'x'`. -/
def missingArgsMsg (fname : String) : List String → String
  | [p] => fname ++ "() missing 1 required positional argument: '" ++ p ++ "'"
  | ps => fname ++ "() missing " ++ toString ps.length
          ++ " required positional arguments: "
          ++ String.intercalate ", " (ps.map (fun p => "'" ++ p ++ "'"))

/-- Python keyword-argument binding for `f(**kwargs)`: an unexpected
keyword raises `TypeError`, a missing required parameter raises
`TypeError`, otherwise each parameter is bound to its keyword value or its
default. -/
def bindKwargs (a : Action) (kwargs : List (String × Json)) :
    Except PyExc (String → Json) :=
  match kwargs.find? (fun kv => !(a.params.any (fun pr => pr.1 = kv.1))) with
  | some kv => .error (.typeError (a.name ++ "() got an unexpected keyword argument '" ++ kv.1 ++ "'"))
  | none =>
    match (requiredNames a).filter (fun p => !(kwargs.any (fun kv => kv.1 = p))) with
    | [] => .ok (fun p =>
        match kwargs.find? (fun kv => kv.1 = p) with
        | some kv => kv.2
        | none =>
          match a.params.find? (fun pr => pr.1 = p) with
          | some (_, some d) => d
          | _ => Json.null)
    | missing => .error (.typeError (missingArgsMsg a.name missing))

/-- Python `action_function(**kwargs)`: bind, then run the body.  A binding
failure raises before the body is entered, so the trace stays empty. -/
def callAction (env : Env) (a : Action) (kwargs : List (String × Json)) : PyM String :=
  match bindKwargs a kwargs with
  | .error e => ([], .error e)
  | .ok bound => a.run bound env

/-! ## Named action bodies (source lines 213-266)

`post_message_if_possible` is the best-effort notification capability
(spec §6): it never affects the returned value or raises, and no claim
observes it, so its calls are omitted from the bodies. -/

/-- Body of `scale_object_action` (source lines 213-218). -/
def scale_object_body (bound : String → Json) (env : Env) : PyM String := do
  let x ← liftExc (pyFloatOfJson (bound "scale_x"))
  let y ← liftExc (pyFloatOfJson (bound "scale_y"))
  let z ← liftExc (pyFloatOfJson (bound "scale_z"))
  let _ ← performOp env (.transform_resize x y z)
  pure ("Scaled object by x:" ++ pyStrOfJson (bound "scale_x")
        ++ ", y:" ++ pyStrOfJson (bound "scale_y")
        ++ ", z:" ++ pyStrOfJson (bound "scale_z"))

/-- Body of `rotate_object_action` (source lines 220-226):
`math.radians(float(angle_degrees))` then
`bpy.ops.transform.rotate(value=angle_radians, orient_axis=str(axis).upper())`. -/
def rotate_object_body (bound : String → Json) (env : Env) : PyM String := do
  let deg ← liftExc (pyFloatOfJson (bound "angle_degrees"))
  let _ ← performOp env (.transform_rotate deg (pyUpper (pyStrOfJson (bound "axis"))))
  pure ("Rotated object by " ++ pyStrOfJson (bound "angle_degrees")
        ++ " degrees around " ++ pyStrOfJson (bound "axis") ++ " axis.")

/-- Body of `move_object_action` (source lines 228-233). -/
def move_object_body (bound : String → Json) (env : Env) : PyM String := do
  let x ← liftExc (pyFloatOfJson (bound "delta_x"))
  let y ← liftExc (pyFloatOfJson (bound "delta_y"))
  let z ← liftExc (pyFloatOfJson (bound "delta_z"))
  let _ ← performOp env (.transform_translate x y z)
  pure ("Moved object by x:" ++ pyStrOfJson (bound "delta_x")
        ++ ", y:" ++ pyStrOfJson (bound "delta_y")
        ++ ", z:" ++ pyStrOfJson (bound "delta_z"))

/-- Script-mode interpretation (the fence stripping inlined at source
lines 253-256): `.strip()`, then drop a leading ```` ```python ````, then a
leading ```` ``` ````, then a trailing ```` ``` ````, re-stripping after
each removal.  The spec names this step `interpret_script`. -/
def interpret_script (s : String) : String :=
  let fencePy : List Char := "```python".data
  let fence : List Char := "```".data
  let c0 := pyStripChars s.data
  let c1 := if fencePy.isPrefixOf c0 then pyStripChars (c0.drop fencePy.length) else c0
  let c2 := if fence.isPrefixOf c1 then pyStripChars (c1.drop fence.length) else c1
  let c3 := if fence.isSuffixOf c2 then pyStripChars (c2.take (c2.length - fence.length)) else c2
  ⟨c3⟩

/-- Python `execute_generated_blender_script` (source lines 247-266): ask the
model for a script, strip fences, refuse an empty result, otherwise `exec`
it; every exception inside is caught and reported as an error message
return value. -/
def execute_generated_blender_script (env : Env) (script_description : String) : PyM String :=
  catchPy
    (match env.scriptLlmChat with
      | .error e => ([], .error e)
      | .ok content =>
        let generated_code := interpret_script content
        if generated_code = "" then
          pure "LLM did not return any script code."
        else
          performOp env (.exec_script generated_code) >>= fun _ =>
            pure ("Successfully executed generated script for: " ++ script_description))
    (fun e => pure ("Error during script generation/execution: " ++ pyExcStr e))

/-! ## The Action Registry (source lines 269-288) -/

/-- A parameterless lambda entry: its body attempts one Blender operation
and returns that operator's result, which the dispatcher discards. -/
def lambdaAction (op : BpyOp) : Action :=
  { name := "<lambda>", runtimeType := .function, params := [],
    run := fun _ env => do let _ ← performOp env op; pure "" }

def scale_object_action : Action :=
  { name := "scale_object_action", runtimeType := .function,
    params := [("scale_x", some (Json.num 1)), ("scale_y", some (Json.num 1)),
               ("scale_z", some (Json.num 1))],
    run := scale_object_body }

def rotate_object_action : Action :=
  { name := "rotate_object_action", runtimeType := .function,
    params := [("angle_degrees", some (Json.num 0)), ("axis", some (Json.str "Z"))],
    run := rotate_object_body }

def move_object_action : Action :=
  { name := "move_object_action", runtimeType := .function,
    params := [("delta_x", some (Json.num 0)), ("delta_y", some (Json.num 0)),
               ("delta_z", some (Json.num 0))],
    run := move_object_body }

def execute_blender_script_entry : Action :=
  { name := "execute_generated_blender_script", runtimeType := .function,
    params := [("script_description", none)],
    run := fun bound env =>
      execute_generated_blender_script env (pyStrOfJson (bound "script_description")) }

/-- Python `color_object_action` (source lines 69-127): its control flow runs
through live scene state, so the body is the `Env` capability; the pure
parsing step it calls is `parse_color_value`. -/
def color_object_action : Action :=
  { name := "color_object_action", runtimeType := .function,
    params := [("color_value", none), ("object_name", some Json.null)],
    run := fun bound env => env.colorObjectBody (bound "color_value") (bound "object_name") }

/-- Python `add_shader_node_action` (source lines 129-167): scene-dependent body,
abstracted as a capability. -/
def add_shader_node_action : Action :=
  { name := "add_shader_node_action", runtimeType := .function,
    params := [("node_type", none), ("object_name", some Json.null)],
    run := fun bound env => env.addShaderNodeBody (bound "node_type") (bound "object_name") }

/-- Python `remove_selected_nodes_action` (source lines 169-211): scene-dependent
body, abstracted as a capability. -/
def remove_selected_nodes_action : Action :=
  { name := "remove_selected_nodes_action", runtimeType := .function,
    params := [],
    run := fun _ env => env.removeSelectedNodesBody }

/-- Python `blender_commands` (source lines 269-288), the Action Registry. -/
def blender_commands : List (String × Action) :=
  [ ("add cube", lambdaAction .primitive_cube_add),
    ("add sphere", lambdaAction .primitive_uv_sphere_add),
    ("add plane", lambdaAction .primitive_plane_add),
    ("add curve", lambdaAction .primitive_bezier_curve_add),
    ("add ocean modifier", lambdaAction .modifier_add_ocean),
    ("open geometry nodes", lambdaAction .new_geometry_nodes_modifier),
    ("delete object", lambdaAction .object_delete),
    ("scale object", scale_object_action),
    ("rotate object", rotate_object_action),
    ("move object", move_object_action),
    ("execute_blender_script", execute_blender_script_entry),
    ("color_object", color_object_action),
    ("add_shader_node", add_shader_node_action),
    ("remove_selected_nodes", remove_selected_nodes_action),
    ("front view", lambdaAction (.view_axis "FRONT")),
    ("right view", lambdaAction (.view_axis "RIGHT")),
    ("top view", lambdaAction (.view_axis "TOP")),
    ("camera view", lambdaAction .view_camera) ]

/-- Python `command_name in blender_commands` / `blender_commands[command_name]`
(keys are unique, so `find?` is the dictionary lookup). -/
def lookupCommand (cname : String) : Option Action :=
  (blender_commands.find? (fun e => e.1 = cname)).map (·.2)

/-! ## Dispatch stage (source lines 343-383 of `process_command`) -/

/-- The guard at line 346: `callable(action_function) and not
isinstance(action_function, type(lambda:0))`.  Every registry value is a
callable, so the first conjunct is `True`; the second tests the runtime
class against `type(lambda: 0)`. -/
def typed_branch_guard (a : Action) : Bool :=
  true && !(a.runtimeType == type_of_lambda)

/-- Substring test (`needle in haystack` on Python strings). -/
def listSubstr (needle : List Char) : List Char → Bool
  | [] => needle.isPrefixOf []
  | c :: rest => needle.isPrefixOf (c :: rest) || listSubstr needle rest

/-- Python `k in params_dict` for the typed-parameter branch: key membership for
a dict, element equality for a list (a string compares equal only to the
same string), substring test for a string, `TypeError` otherwise. -/
def pyContains (k : String) (v : Json) : Except PyExc Bool :=
  match v with
  | .obj fields => .ok (fields.any (fun f => f.1 = k))
  | .arr l => .ok (l.any (fun e => match e with | .str t => t = k | _ => false))
  | .str s => .ok (listSubstr k.data s.data)
  | .null => .error (.typeError "argument of type 'NoneType' is not iterable")
  | .bool _ => .error (.typeError "argument of type 'bool' is not iterable")
  | .num _ => .error (.typeError "argument of type 'int' is not iterable")

/-- Python `params_dict[k]` after a succeeding `k in params_dict`: for a dict the
stored value (duplicate JSON keys decode last-wins, so lookup takes the
last occurrence); a non-dict raises `TypeError` on a string subscript. -/
def pySubscript (v : Json) (k : String) : Except PyExc Json :=
  match v with
  | .obj fields =>
    match (fields.filter (fun f => f.1 = k)).getLast? with
    | some f => .ok f.2
    | none => .error (.other "KeyError")
  | .str _ => .error (.typeError "string indices must be integers")
  | .arr _ => .error (.typeError "list indices must be integers or slices, not str")
  | _ => .error (.typeError "object is not subscriptable")

/-- One step of the float-typing loops (`if k in params_dict:
typed_params[k] = float(params_dict[k])`). -/
def addFloatParam (params_dict : Json) (acc : List (String × Json)) (k : String) :
    Except PyExc (List (String × Json)) := do
  let present ← pyContains k params_dict
  if present then
    let v ← pySubscript params_dict k
    let q ← pyFloatOfJson v
    pure (acc ++ [(k, Json.num q)])
  else
    pure acc

/-- Same for a string-typed parameter (`typed_params[k] = str(params_dict[k])`). -/
def addStrParam (params_dict : Json) (acc : List (String × Json)) (k : String) :
    Except PyExc (List (String × Json)) := do
  let present ← pyContains k params_dict
  if present then
    let v ← pySubscript params_dict k
    pure (acc ++ [(k, Json.str (pyStrOfJson v))])
  else
    pure acc

/-- The parameter extraction and typing logic of lines 347-371.  `inl msg`
is one of the early `return msg` exits for a missing required parameter,
`inr typed_params` the assembled keyword arguments. -/
def typedParamsFor (command_name : String) (params_dict : Json) :
    Except PyExc (Sum String (List (String × Json))) := do
  if command_name = "scale object" then
    let t1 ← addFloatParam params_dict [] "scale_x"
    let t2 ← addFloatParam params_dict t1 "scale_y"
    let t3 ← addFloatParam params_dict t2 "scale_z"
    pure (.inr t3)
  else if command_name = "rotate object" then
    let t1 ← addFloatParam params_dict [] "angle_degrees"
    let present ← pyContains "axis" params_dict
    if present then
      let v ← pySubscript params_dict "axis"
      pure (.inr (t1 ++ [("axis", Json.str (pyUpper (pyStrOfJson v)))]))
    else
      pure (.inr t1)
  else if command_name = "move object" then
    let t1 ← addFloatParam params_dict [] "delta_x"
    let t2 ← addFloatParam params_dict t1 "delta_y"
    let t3 ← addFloatParam params_dict t2 "delta_z"
    pure (.inr t3)
  else if command_name = "execute_blender_script" then
    let present ← pyContains "script_description" params_dict
    if present then
      let v ← pySubscript params_dict "script_description"
      pure (.inr [("script_description", Json.str (pyStrOfJson v))])
    else
      pure (.inl "Error: 'script_description' missing.")
  else if command_name = "color_object" then
    let present ← pyContains "color_value" params_dict
    if present then
      let v ← pySubscript params_dict "color_value"
      addStrParam params_dict [("color_value", v)] "object_name" >>= fun t => pure (.inr t)
    else
      pure (.inl "Error: 'color_value' missing.")
  else if command_name = "add_shader_node" then
    let present ← pyContains "node_type" params_dict
    if present then
      let v ← pySubscript params_dict "node_type"
      addStrParam params_dict [("node_type", Json.str (pyStrOfJson v))] "object_name"
        >>= fun t => pure (.inr t)
    else
      pure (.inl "Error: 'node_type' missing.")
  else
    pure (.inr [])

/-- The dispatch stage of `process_command` (source lines 343-383), given
the interpreted `command_name` and `params_dict`.  An unhashable command
value makes the `in` test itself raise; a hashable non-key falls to the
`not recognized` message.  When the guard selects the typed branch the
body's return value is returned; in the other branch the call result is
discarded and `Executed: {command_name}` is returned. -/
def dispatch_intent (env : Env) (command_name : Json) (params_dict : Json) : PyM String :=
  match command_name with
  | .arr _ => throwPy (.typeError "unhashable type: 'list'")
  | .obj _ => throwPy (.typeError "unhashable type: 'dict'")
  | .str cname =>
    match lookupCommand cname with
    | some action_function =>
      if typed_branch_guard action_function then do
        match ← liftExc (typedParamsFor cname params_dict) with
        | .inl msg => pure msg
        | .inr typed_params => callAction env action_function typed_params
      else do
        let _ ← callAction env action_function []
        pure ("Executed: " ++ cname)
    | none => pure ("Command '" ++ cname ++ "' not recognized.")
  | other => pure ("Command '" ++ pyStrOfJson other ++ "' not recognized.")

/-! ## Structured-mode interpretation (source lines 323-339) -/

/-- Python `str()` of the `JSONDecodeError` raised at line 329 when no opening
brace is found (`raise json.JSONDecodeError("No JSON object in response",
ai_response_content, 0)`).  This is the `NoJsonFound` failure of spec
§4.4. -/
def NoJsonFoundDetail : String := "No JSON object in response: line 1 column 1 (char 0)"

/-- Lines 324-329: locate the first `{` and the last `}`, slice, decode.
`json_end_index = rfind('}') + 1` is `0` when `}` is absent (Python's
`rfind` returns `-1`), and the guard compares it against `-1`, which it
never equals — so a missing `}` does NOT reach the explicit "No JSON
object" raise; it yields an empty slice handed to `json.loads`. -/
def decode_json_phase (content : String) : Except String Json :=
  match pyFindChar content.data lbrace with
  | none => .error NoJsonFoundDetail
  | some json_start_index =>
    let json_end_index : Nat :=
      match pyRfindChar content.data rbrace with
      | none => 0
      | some r => r + 1
    pyJsonLoads (pySlice content.data json_start_index json_end_index)

/-- Lines 323-339: decode, then read `command` (default `None`) and
`parameters` (default `{}`) with `dict.get`; a falsy command is the
`MissingCommand` failure.  `inl` carries an early `return msg` of
`process_command`, `inr` the interpreted pair handed to dispatch.
`dict.get` on a decoded non-dict raises `AttributeError`, which the outer
handler of `process_command` catches. -/
def pyDictGet (v : Json) (k : String) (dflt : Json) : Except PyExc Json :=
  match v with
  | .obj fields => .ok (((fields.filter (fun f => f.1 = k)).getLast?).elim dflt (·.2))
  | .arr _ => .error (.attributeError "'list' object has no attribute 'get'")
  | .str _ => .error (.attributeError "'str' object has no attribute 'get'")
  | .num _ => .error (.attributeError "'int' object has no attribute 'get'")
  | .bool _ => .error (.attributeError "'bool' object has no attribute 'get'")
  | .null => .error (.attributeError "'NoneType' object has no attribute 'get'")

/-- Python truthiness of the decoded `command` field (`if not command_name`). -/
def pyFalsy : Json → Bool
  | .null => true
  | .bool b => !b
  | .num q => q = 0
  | .str s => s = ""
  | .arr l => l.isEmpty
  | .obj f => f.isEmpty

def interpret_intent (content : String) : PyM (Sum String (Json × Json)) :=
  match decode_json_phase content with
  | .error e => pure (Sum.inl ("Error decoding JSON: " ++ e ++ ". Content: " ++ content))
  | .ok parsed_response =>
    match pyDictGet parsed_response "command" Json.null with
    | .error e => ([], .error e)
    | .ok command_name =>
      match pyDictGet parsed_response "parameters" (Json.obj []) with
      | .error e => ([], .error e)
      | .ok params_dict =>
        if pyFalsy command_name then
          pure (Sum.inl "Error: LLM response missing 'command'.")
        else
          pure (Sum.inr (command_name, params_dict))

/-! ## `process_command` (source lines 314-387) -/

/-- The body of the outer `try` of `process_command`: the model call, the
interpretation phase, the dispatch stage.  (The prompt built from
`command_text` only parametrizes the model call, whose outcome the
environment decides, so prompt construction is not modelled; no claim
concerns it.) -/
def process_command_core (env : Env) (_command_text : String) : PyM String := do
  let raw ← liftExc env.llmChat
  let ai_response_content := pyStrip raw
  match ← interpret_intent ai_response_content with
  | Sum.inl msg => pure msg
  | Sum.inr (command_name, params_dict) => dispatch_intent env command_name params_dict

/-- Python `process_command` (source lines 314-387): the outer `except Exception`
converts any raised exception into the returned string
`f"Error in process_command: {e}"`.  The returned pair is the result
string together with the trace of attempted Blender operations. -/
def process_command (env : Env) (command_text : String) : String × List BpyOp :=
  match process_command_core env command_text with
  | (ops, .ok msg) => (msg, ops)
  | (ops, .error e) => ("Error in process_command: " ++ pyExcStr e, ops)

/-- A benign environment: both model calls return an empty reply, every
Blender operation succeeds, the scene-dependent bodies return quietly.
Used to evaluate the pipeline at concrete inputs. -/
def env0 : Env :=
  { llmChat := .ok "",
    scriptLlmChat := .ok "",
    bpyResult := fun _ => .ok (),
    colorObjectBody := fun _ _ => pure "",
    addShaderNodeBody := fun _ _ => pure "",
    removeSelectedNodesBody := pure "" }

/-! ## Shared lemmas -/

/-- Every value of the Action Registry has runtime class `function`: the
named actions because `def` produces a `function`, the lambdas because a
lambda expression does too. -/
theorem registry_values_are_functions :
    ∀ e ∈ blender_commands, e.2.runtimeType = PyType.function := by
  decide

/-- Hence the guard of the typed-parameter branch is `false` at every
entry a lookup can return. -/
theorem lookup_guard_false (cname : String) (a : Action)
    (h : lookupCommand cname = some a) : typed_branch_guard a = false := by
  have hrt : a.runtimeType = PyType.function := by
    rcases Option.map_eq_some'.mp h with ⟨e, hfind, hsnd⟩
    have hmem := List.mem_of_find?_eq_some hfind
    have := registry_values_are_functions e hmem
    rw [← hsnd]; exact this
  simp [typed_branch_guard, type_of_lambda, hrt]

/-- A successful lookup always dispatches through the `else` (lambda)
branch: the action is called with zero arguments and the interpreted
parameters are dropped. -/
theorem dispatch_zero_arg (env : Env) (cname : String) (a : Action)
    (params : Json) (h : lookupCommand cname = some a) :
    dispatch_intent env (Json.str cname) params
      = (callAction env a [] >>= fun _ => pure ("Executed: " ++ cname)) := by
  have hg := lookup_guard_false cname a h
  simp only [dispatch_intent, h, hg, Bool.false_eq_true, if_false]

/-- Calling an action whose signature has exactly one required parameter
with zero arguments raises the binding `TypeError` naming that parameter,
before the body runs. -/
theorem call_zero_arg_missing (env : Env) (a : Action) (p : String)
    (h : requiredNames a = [p]) :
    callAction env a []
      = (([], Except.error (PyExc.typeError
          (a.name ++ "() missing 1 required positional argument: '" ++ p ++ "'"))) : PyM String) := by
  simp only [callAction, bindKwargs, List.find?_nil, h, List.filter,
    List.any_nil, Bool.not_false, missingArgsMsg]

/-! ## Claims about the dispatch stage -/

/-- C9: for every command identifier that is not a key of the Action
Registry, dispatch returns the `not recognized` failure and the trace of
attempted Blender operations is empty — no bound operation is invoked. -/
theorem C9_unknown_command (cname : String) (env : Env) (params : Json)
    (h : lookupCommand cname = none) :
    dispatch_intent env (Json.str cname) params
      = (([], Except.ok ("Command '" ++ cname ++ "' not recognized.")) : PyM String) := by
  simp only [dispatch_intent, h]
  rfl

theorem C9_unknown_command_witness :
    lookupCommand "nonexistent_command" = none
    ∧ dispatch_intent env0 (Json.str "nonexistent_command") (Json.obj [])
      = (([], Except.ok "Command 'nonexistent_command' not recognized.") : PyM String) :=
  ⟨rfl, C9_unknown_command "nonexistent_command" env0 (Json.obj []) rfl⟩

/-- C3: for every command identifier in the registry the typed-parameter
branch guard `callable(f) and not isinstance(f, type(lambda:0))` is
`false` — every registry value, named function or lambda, has the runtime
class `function` — so the dispatcher invokes the bound operation with zero
arguments and the interpreted parameters never reach any operation (the
dispatch result is independent of `params`). -/
theorem C3_typed_branch_unreachable (cname : String) (a : Action)
    (h : lookupCommand cname = some a) :
    a.runtimeType = type_of_lambda
    ∧ typed_branch_guard a = false
    ∧ ∀ (env : Env) (params : Json),
        dispatch_intent env (Json.str cname) params
          = (callAction env a [] >>= fun _ => pure ("Executed: " ++ cname)) := by
  refine ⟨?_, lookup_guard_false cname a h, fun env params => dispatch_zero_arg env cname a params h⟩
  rcases Option.map_eq_some'.mp h with ⟨e, hfind, hsnd⟩
  have := registry_values_are_functions e (List.mem_of_find?_eq_some hfind)
  rw [← hsnd]; exact this

theorem C3_typed_branch_unreachable_witness :
    (lambdaAction BpyOp.primitive_cube_add).runtimeType = type_of_lambda
    ∧ typed_branch_guard (lambdaAction BpyOp.primitive_cube_add) = false
    ∧ ∀ (env : Env) (params : Json),
        dispatch_intent env (Json.str "add cube") params
          = (callAction env (lambdaAction BpyOp.primitive_cube_add) []
              >>= fun _ => pure ("Executed: " ++ "add cube")) :=
  C3_typed_branch_unreachable "add cube" (lambdaAction BpyOp.primitive_cube_add) rfl

/-- C2: for every registry command whose bound callable has exactly one
required parameter (in particular `color_object`, whose only required
parameter is `color_value`), dispatch with ANY parameter mapping that
intent carries fails with the `TypeError` naming that parameter, raised at
argument binding before the operation body is entered (empty operation
trace); `process_command` surfaces it as the failure message naming the
parameter.  The second conjunct is the spec's example: command
`color_object` with an empty parameter mapping. -/
theorem C2_missing_required_parameter :
    (∀ (cname : String) (a : Action) (p : String) (env : Env) (params : Json),
      lookupCommand cname = some a → requiredNames a = [p] →
      dispatch_intent env (Json.str cname) params
        = (([], Except.error (PyExc.typeError
            (a.name ++ "() missing 1 required positional argument: '" ++ p ++ "'"))) : PyM String))
    ∧ dispatch_intent env0 (Json.str "color_object") (Json.obj [])
        = (([], Except.error (PyExc.typeError
            "color_object_action() missing 1 required positional argument: 'color_value'")) : PyM String)
    ∧ process_command
        { env0 with llmChat := .ok "\x7b\"command\": \"color_object\", \"parameters\": \x7b\x7d\x7d" } ""
        = ("Error in process_command: color_object_action() missing 1 required positional argument: 'color_value'", []) := by
  refine ⟨fun cname a p env params hl hreq => ?_, rfl, rfl⟩
  rw [dispatch_zero_arg env cname a params hl, call_zero_arg_missing env a p hreq]
  rfl

theorem C2_missing_required_parameter_witness :
    lookupCommand "color_object" = some color_object_action
    ∧ requiredNames color_object_action = ["color_value"]
    ∧ dispatch_intent env0 (Json.str "color_object")
        (Json.obj [("object_name", Json.str "Cube")])
      = (([], Except.error (PyExc.typeError
          ("color_object_action" ++ "() missing 1 required positional argument: '" ++ "color_value" ++ "'"))) : PyM String) :=
  ⟨rfl, rfl,
    C2_missing_required_parameter.1 "color_object" color_object_action "color_value" env0
      (Json.obj [("object_name", Json.str "Cube")]) rfl rfl⟩

/-- C1: the spec expects `dispatch({command:"rotate_object",
parameters:{angle_degrees:"90", axis:"x"}})` to coerce the angle to 90.0
and the axis to "X", invoke the rotate operation once with them, and
return a success mentioning them.  The code does neither: the registry key
is `rotate object` (with a space), so the spec's identifier is not
recognized at all; and even at the actual key the dead typed branch means
`rotate_object_action` is called with zero arguments — the attempted
operation is a rotation by the DEFAULT 0 degrees around the DEFAULT Z
axis, and the returned message is `Executed: rotate object`, mentioning
neither 90 nor X. -/
theorem C1_rotate_dispatch_ignores_parameters :
    dispatch_intent env0 (Json.str "rotate_object")
        (Json.obj [("angle_degrees", Json.str "90"), ("axis", Json.str "x")])
      = (([], Except.ok "Command 'rotate_object' not recognized.") : PyM String)
    ∧ dispatch_intent env0 (Json.str "rotate object")
        (Json.obj [("angle_degrees", Json.str "90"), ("axis", Json.str "x")])
      = (([BpyOp.transform_rotate 0 "Z"], Except.ok "Executed: rotate object") : PyM String) :=
  ⟨rfl, rfl⟩

/-! ## Claims about structured-mode interpretation -/

/-- C5, counterexample: the claim says NoJsonFound whenever `{` OR `}` is
absent.  At the reply `"{a"` the closing brace is absent, yet the failure
is the generic decode error of `json.loads("")` (because
`rfind('}') + 1 = 0 ≠ -1` passes the guard and produces an empty slice),
not the `No JSON object in response` failure. -/
theorem C5_close_brace_counterexample :
    decode_json_phase "\x7ba" = Except.error "Expecting value: line 1 column 1 (char 0)"
    ∧ "Expecting value: line 1 column 1 (char 0)" ≠ NoJsonFoundDetail
    ∧ interpret_intent "\x7ba"
        = pure (Sum.inl "Error decoding JSON: Expecting value: line 1 column 1 (char 0). Content: \x7ba") :=
  ⟨rfl, by decide, rfl⟩

/-- C5, amended: the `NoJsonFound` failure arises exactly when the opening
brace `{` is absent from the reply (in particular at `"no json here"`);
when `{` is present but `}` is absent, the guard still passes, the
extracted slice is empty, and interpretation fails with the decode error
of `json.loads("")` instead. -/
theorem C5_nojson_iff_open_brace_absent :
    (∀ content : String, pyFindChar content.data lbrace = none →
      decode_json_phase content = Except.error NoJsonFoundDetail)
    ∧ (∀ (content : String) (i : Nat), pyFindChar content.data lbrace = some i →
      pyRfindChar content.data rbrace = none →
      decode_json_phase content = Except.error "Expecting value: line 1 column 1 (char 0)")
    ∧ decode_json_phase "no json here" = Except.error NoJsonFoundDetail := by
  refine ⟨fun content h => ?_, fun content i hf hr => ?_, rfl⟩
  · simp only [decode_json_phase, h]
  · simp only [decode_json_phase, hf, hr]
    have hsl : pySlice content.data i 0 = [] := by simp [pySlice]
    rw [hsl]
    rfl

theorem C5_nojson_iff_open_brace_absent_witness :
    decode_json_phase "the model returned no reply" = Except.error NoJsonFoundDetail
    ∧ decode_json_phase "\x7bab" = Except.error "Expecting value: line 1 column 1 (char 0)" :=
  ⟨C5_nojson_iff_open_brace_absent.1 "the model returned no reply" rfl,
   C5_nojson_iff_open_brace_absent.2.1 "\x7bab" 0 rfl rfl⟩

/-- C6: structured-mode interpretation ignores everything around the
well-formed JSON object between the first `{` and the last `}` (the
concrete first conjunct is the spec's example, with leading and trailing
commentary); whenever decoding succeeds on an object, a falsy `command`
(absent → the `None` default, or the empty string) fails with the
MissingCommand message, and otherwise interpretation yields exactly the
object's command and parameters, the `parameters` field defaulting to the
empty mapping when absent (third conjunct). -/
theorem C6_interpret_intent_yields_embedded_object :
    interpret_intent "blah blah \x7b\"command\": \"move_object\", \"parameters\": \x7b\"delta_x\": 2\x7d\x7d trailing text"
      = pure (Sum.inr (Json.str "move_object", Json.obj [("delta_x", Json.num 2)]))
    ∧ (∀ (content : String) (v c p : Json),
        decode_json_phase content = Except.ok v →
        pyDictGet v "command" Json.null = Except.ok c →
        pyDictGet v "parameters" (Json.obj []) = Except.ok p →
        (pyFalsy c = true →
          interpret_intent content = pure (Sum.inl "Error: LLM response missing 'command'."))
        ∧ (pyFalsy c = false → interpret_intent content = pure (Sum.inr (c, p))))
    ∧ (∀ fields : List (String × Json), fields.filter (fun f => f.1 = "parameters") = [] →
        pyDictGet (Json.obj fields) "parameters" (Json.obj []) = Except.ok (Json.obj [])) := by
  refine ⟨by with_unfolding_all rfl,
    fun content v c p hd hc hp => ⟨fun hf => ?_, fun hf => ?_⟩, fun fields h => ?_⟩
  · simp only [interpret_intent, hd, hc, hp, hf, if_true]
  · simp only [interpret_intent, hd, hc, hp, hf, Bool.false_eq_true, if_false]
  · simp only [pyDictGet, h, List.getLast?_nil, Option.elim_none]

theorem C6_interpret_intent_yields_embedded_object_witness :
    interpret_intent "\x7b\"command\": \"add cube\"\x7d"
      = pure (Sum.inr (Json.str "add cube", Json.obj []))
    ∧ interpret_intent "\x7b\"parameters\": \x7b\x7d\x7d"
      = pure (Sum.inl "Error: LLM response missing 'command'.")
    ∧ pyDictGet (Json.obj [("command", Json.str "add cube")]) "parameters" (Json.obj [])
      = Except.ok (Json.obj []) :=
  ⟨(C6_interpret_intent_yields_embedded_object.2.1 "\x7b\"command\": \"add cube\"\x7d"
      (Json.obj [("command", Json.str "add cube")]) (Json.str "add cube") (Json.obj [])
      rfl rfl rfl).2 rfl,
   (C6_interpret_intent_yields_embedded_object.2.1 "\x7b\"parameters\": \x7b\x7d\x7d"
      (Json.obj [("parameters", Json.obj [])]) Json.null (Json.obj [])
      rfl rfl rfl).1 rfl,
   C6_interpret_intent_yields_embedded_object.2.2 [("command", Json.str "add cube")] rfl⟩

/-! ## Claim about the whole pipeline -/

/-- C4: `process_command` is total — for every environment behaviour
(model calls, Blender operations, `exec` and the scene-dependent bodies
may each raise arbitrarily) and every utterance it returns a result pair —
and every exception the pipeline body raises is caught by the outer
handler and wrapped as the `Error in process_command: {e}` failure
message instead of propagating. -/
theorem C4_never_propagates :
    (∀ (env : Env) (t : String), ∃ msg ops, process_command env t = (msg, ops))
    ∧ (∀ (env : Env) (t : String) (ops : List BpyOp) (e : PyExc),
        process_command_core env t = (ops, Except.error e) →
        process_command env t = ("Error in process_command: " ++ pyExcStr e, ops)) := by
  refine ⟨fun env t => ⟨(process_command env t).1, (process_command env t).2, rfl⟩,
    fun env t ops e h => ?_⟩
  simp only [process_command, h]

theorem C4_never_propagates_witness :
    process_command { env0 with llmChat := .error (PyExc.other "model unavailable") } "hi"
      = ("Error in process_command: " ++ pyExcStr (PyExc.other "model unavailable"), []) :=
  C4_never_propagates.2 { env0 with llmChat := .error (PyExc.other "model unavailable") }
    "hi" [] (PyExc.other "model unavailable") rfl

/-! ## Claims about the color parser -/

/-- C7: the color parser follows its rule table.  Every entry of
`STANDARD_COLORS` carries alpha 1; a string whose lowercasing is a known
color name yields that name's canonical RGBA; a string of 3 (resp. 4)
comma-separated numeric tokens yields those floats with alpha 1.0 (resp.
the fourth token as alpha) — with the spec's two concrete examples; a
non-numeric token anywhere makes the whole token conversion fail
(`floatTokens = none`), and then the parse fails (returns `None`), as at
`"not,a,color"`. -/
theorem C7_parse_color_rule_table :
    (∀ nc ∈ STANDARD_COLORS, nc.2.2.2.2 = (1 : ℚ))
    ∧ (∀ (s : String) (c : Rgba), lookupColor (pyLower s) = some c →
        parse_color_value (Json.str s) = Except.ok (some c))
    ∧ (∀ (ts : List (List Char)) (t : List Char), t ∈ ts →
        parsePyFloat (pyStripChars t) = none → floatTokens ts = none)
    ∧ (∀ s : String, lookupColor (pyLower s) = none →
        floatTokens (pySplitOn ',' (pyLower s).data) = none →
        parse_color_value (Json.str s) = Except.ok none)
    ∧ (∀ (s : String) (r g b : ℚ), lookupColor (pyLower s) = none →
        floatTokens (pySplitOn ',' (pyLower s).data) = some [r, g, b] →
        parse_color_value (Json.str s) = Except.ok (some (r, g, b, 1)))
    ∧ (∀ (s : String) (r g b a : ℚ), lookupColor (pyLower s) = none →
        floatTokens (pySplitOn ',' (pyLower s).data) = some [r, g, b, a] →
        parse_color_value (Json.str s) = Except.ok (some (r, g, b, a)))
    ∧ parse_color_value (Json.str "0.1,0.2,0.9") = Except.ok (some (1/10, 1/5, 9/10, 1))
    ∧ parse_color_value (Json.str "1,0,0,0.5") = Except.ok (some (1, 0, 0, 1/2))
    ∧ parse_color_value (Json.str "not,a,color") = Except.ok none := by
  refine ⟨by decide, fun s c h => ?_, fun ts => ?_, fun s h1 h2 => ?_,
    fun s r g b h1 h2 => ?_, fun s r g b a h1 h2 => ?_,
    by with_unfolding_all rfl, by with_unfolding_all rfl, rfl⟩
  · simp only [parse_color_value, h]
  · induction ts with
    | nil => intro t ht; simp at ht
    | cons hd tl ih =>
      intro t ht hp
      rcases List.mem_cons.mp ht with rfl | htl
      · simp only [floatTokens, hp]
      · cases hh : parsePyFloat (pyStripChars hd) with
        | none => simp only [floatTokens, hh]
        | some q => simp only [floatTokens, hh, ih t htl hp, Option.map_none']
  · simp only [parse_color_value, h1, h2]
  · simp only [parse_color_value, h1, h2]
  · simp only [parse_color_value, h1, h2]

theorem C7_parse_color_rule_table_witness :
    parse_color_value (Json.str "RED") = Except.ok (some (1, 0, 0, 1))
    ∧ floatTokens ["9x".data] = none
    ∧ parse_color_value (Json.str "2,3,4") = Except.ok (some (2, 3, 4, 1))
    ∧ parse_color_value (Json.str "2,3,4,5") = Except.ok (some (2, 3, 4, 5))
    ∧ parse_color_value (Json.str "zz,3") = Except.ok none :=
  ⟨C7_parse_color_rule_table.2.1 "RED" (1, 0, 0, 1) rfl,
   C7_parse_color_rule_table.2.2.1 ["9x".data] "9x".data (List.mem_singleton.mpr rfl) rfl,
   C7_parse_color_rule_table.2.2.2.2.1 "2,3,4" 2 3 4 rfl (by with_unfolding_all rfl),
   C7_parse_color_rule_table.2.2.2.2.2.1 "2,3,4,5" 2 3 4 5 rfl (by with_unfolding_all rfl),
   C7_parse_color_rule_table.2.2.2.1 "zz,3" rfl rfl⟩

/-- C8, counterexample: the claim says the parser is total and never
raises, but the list branch converts elements with `float(c)` OUTSIDE any
`try`: a 3-element list with a non-numeric element raises `ValueError`
out of `parse_color_value`. -/
theorem C8_list_element_raises_counterexample :
    parse_color_value (Json.arr [Json.str "not", Json.str "a", Json.str "color"])
      = Except.error (PyExc.valueError "could not convert string to float: 'not'") := rfl

/-- C8, amended: the parser is total on every non-list input — any string
input and any other non-sequence shape yields a color or the `None` parse
failure without raising (string-branch conversion errors are caught by its
`except ValueError`) — and a list input of a length other than 3 or 4
also returns `None` without raising; only a 3- or 4-element list can
raise, via the uncaught element conversion. -/
theorem C8_total_except_list_elements :
    (∀ v : Json, (∀ l, v ≠ Json.arr l) → ∃ r, parse_color_value v = Except.ok r)
    ∧ (∀ l : List Json, l.length ≠ 3 → l.length ≠ 4 →
        parse_color_value (Json.arr l) = Except.ok none) := by
  constructor
  · intro v hv
    match v with
    | .arr l => exact absurd rfl (hv l)
    | .null => exact ⟨none, rfl⟩
    | .bool b => exact ⟨none, rfl⟩
    | .num q => exact ⟨none, rfl⟩
    | .obj f => exact ⟨none, rfl⟩
    | .str s =>
      simp only [parse_color_value]
      cases hlc : lookupColor (pyLower s) with
      | some c => exact ⟨some c, rfl⟩
      | none =>
        cases hft : floatTokens (pySplitOn ',' (pyLower s).data) with
        | none => exact ⟨none, rfl⟩
        | some parts =>
          match parts with
          | [] => exact ⟨none, rfl⟩
          | [x] => exact ⟨none, rfl⟩
          | [x, y] => exact ⟨none, rfl⟩
          | [x, y, z] => exact ⟨some (x, y, z, 1), rfl⟩
          | [x, y, z, w] => exact ⟨some (x, y, z, w), rfl⟩
          | x :: y :: z :: w :: u :: rest => exact ⟨none, rfl⟩
  · intro l h3 h4
    match l with
    | [] => rfl
    | [x] => rfl
    | [x, y] => rfl
    | [x, y, z] => exact absurd rfl h3
    | [x, y, z, w] => exact absurd rfl h4
    | x :: y :: z :: w :: u :: rest => rfl

theorem C8_total_except_list_elements_witness :
    (∃ r, parse_color_value (Json.num 5) = Except.ok r)
    ∧ parse_color_value (Json.arr [Json.str "not", Json.str "numeric"]) = Except.ok none :=
  ⟨C8_total_except_list_elements.1 (Json.num 5) (fun _ h => Json.noConfusion h),
   C8_total_except_list_elements.2 [Json.str "not", Json.str "numeric"]
     (by decide) (by decide)⟩

/-! ## Claim about script-mode interpretation -/

/-- C10: script-mode interpretation trims surrounding whitespace, strips a
leading language-tagged fence and a trailing fence when present (the
spec's fence example yields `print(1)`, and the executed script is exactly
that text), and a blank remainder is the EmptyScript failure: whenever the
model reply strips to nothing, the script action refuses with `LLM did not
return any script code.` and executes nothing (empty operation trace) — in
particular at the whitespace-only reply `"   "`. -/
theorem C10_interpret_script_fences_and_empty :
    interpret_script "```python\nprint(1)\n```" = "print(1)"
    ∧ interpret_script "   " = ""
    ∧ (∀ (env : Env) (desc content : String), env.scriptLlmChat = .ok content →
        interpret_script content = "" →
        execute_generated_blender_script env desc
          = (([], Except.ok "LLM did not return any script code.") : PyM String))
    ∧ execute_generated_blender_script
        { env0 with scriptLlmChat := .ok "```python\nprint(1)\n```" } "make print"
      = (([BpyOp.exec_script "print(1)"],
          Except.ok "Successfully executed generated script for: make print") : PyM String) := by
  refine ⟨rfl, rfl, fun env desc content hc hs => ?_, rfl⟩
  simp only [execute_generated_blender_script, hc, hs, if_pos rfl]
  rfl

theorem C10_interpret_script_fences_and_empty_witness :
    execute_generated_blender_script { env0 with scriptLlmChat := .ok "   " } "nothing"
      = (([], Except.ok "LLM did not return any script code.") : PyM String) :=
  C10_interpret_script_fences_and_empty.2.2.1
    { env0 with scriptLlmChat := .ok "   " } "nothing" "   " rfl rfl

end BlenderSpec

